import Mathlib

/-!
Verification of the taskd process-supervision core (Go sources under
`internal/task/`): the runtime-state document, the durable state store
(`FileStateManager`), the task orchestrator (`Manager`), the daemon
lifecycle controller (`DaemonManager`) and the task monitor
(`TaskMonitor`).  Every definition is a shallow embedding of the
corresponding Go function; OS effects (process table, spawn results,
clock) are passed explicitly.
-/

namespace Taskd

/-- `TaskRuntimeInfo` from `manager.go`: one persisted runtime record.
Go `int` fields are embedded as `Int`; `time.Time` as an abstract `Int`
timestamp. -/
structure TaskRuntimeInfo where
  name : String
  status : String
  pid : Int
  startTime : Int
  endTime : Int
  exitCode : Int
  stoppedByTaskd : Bool
  retryNum : Int
deriving Repr, DecidableEq

/-- `RuntimeState.Tasks`: the task-name → record map of the runtime
state document, embedded as an association list (Go map iteration order
becomes list order). -/
abbrev Doc := List (String × TaskRuntimeInfo)

/-- Go map read: first binding of the key in an association list. -/
def alookup {α : Type} : List (String × α) → String → Option α
  | [], _ => none
  | (k, v) :: rest, n => if k = n then some v else alookup rest n

/-- Go map write: replace the binding in place, or append when the key
is absent. -/
def aset {α : Type} : List (String × α) → String → α → List (String × α)
  | [], n, a => [(n, a)]
  | (k, v) :: rest, n, a =>
      if k = n then (n, a) :: rest else (k, v) :: aset rest n a

/-- `state.Tasks[name]` read. -/
def getTask (d : Doc) (n : String) : Option TaskRuntimeInfo := alookup d n

/-- `state.Tasks[name] = info` write. -/
def setTask (d : Doc) (n : String) (i : TaskRuntimeInfo) : Doc := aset d n i

/-- The fields of `Config` (task definition) consumed by the supervision
core: identification, restart policy. -/
structure Config where
  name : String
  executable : String
  autoStart : Bool
  maxRetryNum : Int
deriving Repr, DecidableEq

/-! ## Durable state store (`FileStateManager`, daemon.go) -/

/-- Content of one on-disk file: either bytes that `json.Unmarshal` to a
document, or bytes on which parsing fails. -/
inductive FileData where
  | valid (tasks : Doc)
  | corrupt
deriving Repr, DecidableEq

/-- The slice of the file system the store touches: the primary state
file, its `.backup` sibling, the `.tmp` staging file, and quarantined
`.corrupted.<timestamp>` files. -/
structure StoreFS where
  primary : Option FileData
  backup : Option FileData
  temp : Option FileData
  quarantine : List (Int × FileData)
deriving Repr, DecidableEq

/-- `FileStateManager.saveRuntimeStateUnsafe`, observable intermediate
states included: (1) when the primary file exists, copy it to the backup
path; (2) write the marshalled document to the `.tmp` path; (3) rename
the `.tmp` file over the primary path.  The returned list holds the file
system as a reader could observe it after each step. -/
def fsmSaveSteps (fs : StoreFS) (d : Doc) : List StoreFS :=
  let fs1 := if fs.primary.isSome then { fs with backup := fs.primary } else fs
  let fs2 := { fs1 with temp := some (FileData.valid d) }
  let fs3 := { fs2 with primary := some (FileData.valid d), temp := none }
  [fs, fs1, fs2, fs3]

/-- Final file system after `FileStateManager.saveRuntimeStateUnsafe`. -/
def fsmSave (fs : StoreFS) (d : Doc) : StoreFS :=
  let fs1 := if fs.primary.isSome then { fs with backup := fs.primary } else fs
  let fs2 := { fs1 with temp := some (FileData.valid d) }
  { fs2 with primary := some (FileData.valid d), temp := none }

/-- `Manager.saveRuntimeStateWithData` (manager.go): a bare
`os.WriteFile` of the marshalled document onto the primary path — no
backup copy, no temp-file staging, no rename. -/
def managerSaveWithData (fs : StoreFS) (d : Doc) : StoreFS :=
  { fs with primary := some (FileData.valid d) }

/-- `FileStateManager.backupCorruptedState`: rename the primary file to
`<path>.corrupted.<timestamp>`. -/
def backupCorruptedState (fs : StoreFS) (now : Int) : StoreFS :=
  match fs.primary with
  | none => fs
  | some c => { fs with primary := none, quarantine := (now, c) :: fs.quarantine }

/-- `FileStateManager.recoverCorruptedState`: when a parseable backup
file exists, rewrite the primary file from it (through
`saveRuntimeStateUnsafe`) and return its document; otherwise fail. -/
def recoverCorruptedState (fs : StoreFS) : Option (Doc × StoreFS) :=
  match fs.backup with
  | some (FileData.valid d) => some (d, fsmSave fs d)
  | _ => none

/-- `FileStateManager.loadRuntimeStateUnsafe`: missing file yields the
empty document; a parse failure first tries backup recovery and, failing
that, quarantines the corrupted primary and yields the empty document.
Corruption is never surfaced as an error. -/
def loadRuntimeStateUnsafe (fs : StoreFS) (now : Int) : Doc × StoreFS :=
  match fs.primary with
  | none => ([], fs)
  | some (FileData.valid d) => (d, fs)
  | some FileData.corrupt =>
      match recoverCorruptedState fs with
      | some (d, fs') => (d, fs')
      | none => ([], backupCorruptedState fs now)

/-! ## Process checker (`ProcessChecker`, daemon.go) -/

/-- Ambient operating-system state as observed by one command or daemon
process: the process table (pid → executable path of the live process
owning it, `none` when no such process exists) and the result of
`os.Executable()` for the observing process (`none` when it errors). -/
structure Env where
  os : Int → Option String
  currentExec : Option String

/-- `ProcessStatus` (manager.go), the fields the core consults. -/
structure ProcessStatus where
  found : Bool
  isTaskd : Bool
deriving Repr, DecidableEq

/-- `ProcessChecker.CheckTaskProcess`: a non-positive or dead pid does
not exist; for a live pid, `getProcessExecutablePath` is consulted.
That helper (daemon.go) returns the OBSERVER's own executable path and
`true` unconditionally — it never inspects the target process — so
`isTaskd` is `true` for any live pid whenever `os.Executable()`
succeeds, regardless of which program owns the pid. -/
def checkTaskProcess (env : Env) (pid : Int) : ProcessStatus :=
  if pid ≤ 0 then ⟨false, false⟩
  else
    match env.os pid with
    | none => ⟨false, false⟩
    | some _ =>
        match env.currentExec with
        | none => ⟨true, false⟩
        | some _ => ⟨true, true⟩

/-- `ProcessChecker.GetProcessExitCode`: every branch produces exit code
0, together with an error except when the process has already exited
(which, in the modelled Windows behaviour of `os.FindProcess`, does not
occur: a dead pid fails the lookup). -/
def checkerGetProcessExitCode (env : Env) (pid : Int) : Int × Bool :=
  match env.os pid with
  | none => (0, true)
  | some _ => (0, true)

/-! ## Builtin task handling (`BuiltinTaskHandler`) -/

/-- `BuiltinTaskHandler.IsBuiltinTask`. -/
def isBuiltinTask (n : String) : Bool := n == "taskd"

/-- `BuiltinTaskHandler.GetBuiltinTaskConfig` for the daemon entry:
auto-start off, no retry. -/
def builtinConfig : Config :=
  { name := "taskd", executable := "taskd --daemon",
    autoStart := false, maxRetryNum := 0 }

/-- `TaskMonitor.getTaskConfig`: builtin names get the synthetic builtin
config; other names are read from their definition files, modelled by
the map `cfgs`. -/
def getTaskConfig (cfgs : String → Option Config) (n : String) : Option Config :=
  if isBuiltinTask n then some builtinConfig else cfgs n

/-! ## Task (`task.go`): in-memory task objects -/

/-- In-memory `Task` state: the configuration, the point-in-time status
string, the owned process handle (`some pid` while one is held), and the
bookkeeping fields used by persistence. -/
structure MTask where
  config : Config
  status : String
  pid : Option Int
  startTime : Int
  exitCode : Int
deriving Repr, DecidableEq

/-- `Task.GetRuntimeInfo`: a record is produced only while the status is
`running` and a process handle is held; the remaining fields keep their
Go zero values. -/
def GetRuntimeInfo (t : MTask) : Option TaskRuntimeInfo :=
  if t.status = "running" then
    match t.pid with
    | some p =>
        some { name := t.config.name, status := "running", pid := p,
               startTime := t.startTime, endTime := 0, exitCode := 0,
               stoppedByTaskd := false, retryNum := 0 }
    | none => none
  else none

/-- `Task.Start`: fails (unchanged) when already running; otherwise the
spawn outcome is supplied by the environment — `some p` spawns a process
with pid `p` and moves the task to `running`, `none` is a spawn failure
moving it to `failed`.  The `Bool` is the error flag. -/
def taskStart (t : MTask) (spawn : Option Int) (now : Int) : MTask × Bool :=
  if t.status = "running" then (t, true)
  else
    match spawn with
    | none => ({ t with status := "failed" }, true)
    | some p =>
        ({ t with status := "running", pid := some p,
                  startTime := now, exitCode := 0 }, false)

/-- `Task.Stop`: fails when not running.  With no held handle the source
skips the kill block and returns `nil` with the status untouched.  With
a handle, a live process is killed (status `stopped`, exit code −1) and
a dead one is treated as already stopped (exit code reset to 0);
neither is an error. -/
def taskStop (t : MTask) (env : Env) : MTask × Bool :=
  if t.status ≠ "running" then (t, true)
  else
    match t.pid with
    | none => (t, false)
    | some p =>
        if (env.os p).isSome then
          ({ t with status := "stopped", pid := none, exitCode := -1 }, false)
        else
          ({ t with status := "stopped", pid := none, exitCode := 0 }, false)

/-! ## Orchestrator (`Manager`, manager.go) -/

/-- The `Manager`'s in-memory task map. -/
structure Mgr where
  tasks : List (String × MTask)
deriving Repr, DecidableEq

/-- `m.tasks[name]` read. -/
def lookupMTask (m : Mgr) (n : String) : Option MTask := alookup m.tasks n

/-- `m.tasks[name] = task` write. -/
def setMTask (m : Mgr) (n : String) (t : MTask) : Mgr := ⟨aset m.tasks n t⟩

/-- One iteration of the first loop of `Manager.saveRuntimeState`: the
entry a task contributes, when it contributes one. -/
def regEntry (kt : String × MTask) : Option (String × TaskRuntimeInfo) :=
  (GetRuntimeInfo kt.2).map fun i => (kt.1, i)

/-- First loop of `Manager.saveRuntimeState`: the records contributed
by in-memory tasks, i.e. exactly those with a non-nil
`GetRuntimeInfo`. -/
def regularRecords (l : List (String × MTask)) : Doc :=
  l.filterMap regEntry

/-- Second loop of `Manager.saveRuntimeState`: the builtin entries of
the on-disk document. -/
def builtinRecords (cur : Doc) : Doc := cur.filter fun p => isBuiltinTask p.1

/-- Setting each entry of `l` into `acc`, in order (the Go
`state.Tasks[name] = info` loop). -/
def overlay (acc : Doc) (l : Doc) : Doc :=
  l.foldl (fun a p => aset a p.1 p.2) acc

/-- `Manager.saveRuntimeState`: rebuild the document from scratch —
records of in-memory tasks that are currently running with a live
handle, then the builtin entries copied verbatim from the document that
is on disk at save time (`cur`). -/
def saveRuntimeStateDoc (m : Mgr) (cur : Doc) : Doc :=
  overlay (regularRecords m.tasks) (builtinRecords cur)

/-- `Manager.resetTaskRetryCount`: zero the persisted retry counter of
one record, when present. -/
def resetTaskRetryCount (doc : Doc) (n : String) : Doc :=
  match getTask doc n with
  | none => doc
  | some i => setTask doc n { i with retryNum := 0 }

/-- `Manager.setTaskStoppedByTaskd`: flip the operator-stop flag of one
record, when present; with `flag = true` also force status `stopped`,
pid 0 and the end time. -/
def setTaskStoppedByTaskd (doc : Doc) (n : String) (flag : Bool) (now : Int) : Doc :=
  match getTask doc n with
  | none => doc
  | some i =>
      if flag then
        setTask doc n { i with
                          stoppedByTaskd := true, endTime := now,
                          status := "stopped", pid := 0 }
      else
        setTask doc n { i with stoppedByTaskd := false }

/-! ## Daemon lifecycle controller (`DaemonManager`, daemon.go) -/

/-- `DaemonManager.isDaemonRunningLocked`: the persisted daemon record
must exist with status `running` and `CheckTaskProcess` on its pid must
report both existence and taskd identity. -/
def isDaemonRunningLocked (doc : Doc) (env : Env) : Bool :=
  match getTask doc "taskd" with
  | none => false
  | some i =>
      if i.status ≠ "running" then false
      else
        let st := checkTaskProcess env i.pid
        st.found && st.isTaskd

/-- The daemon record `StartDaemon` persists after a successful spawn. -/
def daemonRunningRec (dpid : Int) (now : Int) : TaskRuntimeInfo :=
  { name := "taskd", status := "running", pid := dpid, startTime := now,
    endTime := 0, exitCode := 0, stoppedByTaskd := false, retryNum := 0 }

/-- The stopped daemon record written by `updateDaemonStoppedState` /
`updateDaemonStoppedStateWithManager`. -/
def daemonStoppedRec (i : TaskRuntimeInfo) (now : Int) : TaskRuntimeInfo :=
  { name := "taskd", status := "stopped", pid := 0, startTime := i.startTime,
    endTime := now, exitCode := 0, stoppedByTaskd := true, retryNum := i.retryNum }

/-- `DaemonManager.StartDaemon`: error when a validated daemon already
runs, when `os.Executable()` fails, or when the spawn fails (`dspawn =
none`); otherwise persist a running daemon record carrying the new pid.
The `Bool` is the error flag. -/
def startDaemonOp (doc : Doc) (env : Env) (dspawn : Option Int) (now : Int) :
    Doc × Bool :=
  if isDaemonRunningLocked doc env then (doc, true)
  else
    match env.currentExec with
    | none => (doc, true)
    | some _ =>
        match dspawn with
        | none => (doc, true)
        | some dpid => (setTask doc "taskd" (daemonRunningRec dpid now), false)

/-- `DaemonManager.StopDaemon`: error when no record exists or the
record is not `running`; otherwise terminate the recorded pid (a dead
pid is treated the same way) and persist the stopped record with
`stoppedByTaskd = true`. -/
def stopDaemonOp (doc : Doc) (_env : Env) (now : Int) : Doc × Bool :=
  match getTask doc "taskd" with
  | none => (doc, true)
  | some i =>
      if i.status ≠ "running" then (doc, true)
      else (setTask doc "taskd" (daemonStoppedRec i now), false)

/-- `DaemonManager.EnsureDaemonRunning`: start a daemon only when the
liveness-and-identity validation fails. -/
def ensureDaemonRunning (doc : Doc) (env : Env) (dspawn : Option Int) (now : Int) :
    Doc × Bool :=
  if isDaemonRunningLocked doc env then (doc, false)
  else startDaemonOp doc env dspawn now

/-- `Manager.hasRunningTasks`: some non-daemon record is `running`. -/
def hasRunningTasks (doc : Doc) : Bool :=
  doc.any fun p => p.1 ≠ "taskd" && p.2.status == "running"

/-- `Manager.hasAutoStartTasks`: some configured auto-start task is
either recorded running, or recorded stopped by nobody with retry
budget remaining, or has no record yet. -/
def hasAutoStartTasks (m : Mgr) (doc : Doc) : Bool :=
  m.tasks.any fun kt =>
    kt.2.config.autoStart &&
      match getTask doc kt.1 with
      | some i =>
          i.status == "running" ||
            (i.status == "stopped" && !i.stoppedByTaskd &&
              (decide (kt.2.config.maxRetryNum ≤ 0) ||
               decide (i.retryNum < kt.2.config.maxRetryNum)))
      | none => true

/-- `Manager.needsDaemon`. -/
def needsDaemon (m : Mgr) (doc : Doc) : Bool :=
  hasRunningTasks doc || hasAutoStartTasks m doc

/-- `Manager.ensureDaemonForCommand`: ensure a daemon when one is
needed; failures are only logged, so the caller proceeds with the
(possibly updated) document either way. -/
def ensureDaemonForCommand (m : Mgr) (doc : Doc) (env : Env)
    (dspawn : Option Int) (now : Int) : Doc :=
  if needsDaemon m doc then (ensureDaemonRunning doc env dspawn now).1 else doc

/-! ## Manager operations (manager.go) -/

/-- `Manager.startTask`: ensure the daemon if needed, dispatch builtin
names to `StartDaemon`, start the in-memory task, and on success reset
the persisted retry counter and rebuild-save the document.  Returns the
updated manager, the final on-disk document, and the error flag. -/
def startTask (m : Mgr) (doc : Doc) (env : Env) (spawn : Option Int)
    (dspawn : Option Int) (now : Int) (n : String) : Mgr × Doc × Bool :=
  let doc0 := ensureDaemonForCommand m doc env dspawn now
  if isBuiltinTask n then (m, startDaemonOp doc0 env dspawn now)
  else
    match lookupMTask m n with
    | none => (m, doc0, true)
    | some t =>
        let r := taskStart t spawn now
        let m' := setMTask m n r.1
        if r.2 then (m', doc0, true)
        else (m', saveRuntimeStateDoc m' (resetTaskRetryCount doc0 n), false)

/-- `Manager.stopTask`: dispatch builtin names to `StopDaemon`; for a
regular task, attempt the stop, set the operator-stop flag in the
document (first save), then unconditionally rebuild-save the document
from the in-memory tasks (second save), even when the stop failed. -/
def stopTask (m : Mgr) (doc : Doc) (env : Env) (now : Int) (n : String) :
    Mgr × Doc × Bool :=
  if isBuiltinTask n then (m, stopDaemonOp doc env now)
  else
    match lookupMTask m n with
    | none => (m, doc, true)
    | some t =>
        let s := taskStop t env
        let m' := setMTask m n s.1
        (m', saveRuntimeStateDoc m' (setTaskStoppedByTaskd doc n true now), s.2)

/-- `Manager.restartTask`: ensure the daemon if needed; for a regular
task, stop it when running (propagating a stop failure), start it, and
on success reset the retry counter and rebuild-save. -/
def restartTask (m : Mgr) (doc : Doc) (env : Env) (spawn : Option Int)
    (dspawn : Option Int) (now : Int) (n : String) : Mgr × Doc × Bool :=
  let doc0 := ensureDaemonForCommand m doc env dspawn now
  if isBuiltinTask n then
    (m, startDaemonOp (stopDaemonOp doc0 env now).1 env dspawn now)
  else
    match lookupMTask m n with
    | none => (m, doc0, true)
    | some t =>
        let s := if t.status = "running" then taskStop t env else (t, false)
        if s.2 then (setMTask m n s.1, doc0, true)
        else
          let r := taskStart s.1 spawn now
          let m' := setMTask m n r.1
          if r.2 then (m', doc0, true)
          else (m', saveRuntimeStateDoc m' (resetTaskRetryCount doc0 n), false)

/-! ## Task monitor (`TaskMonitor`, daemon.go) -/

/-- Environment of one monitor tick: the OS view, the task definition
files, the per-task spawn outcomes a restart would get, the daemon
spawn outcome, and the clock. -/
structure TickEnv where
  env : Env
  cfgs : String → Option Config
  spawns : String → Option Int
  dspawn : Option Int
  now : Int

/-- `TaskMonitor.getProcessExitCode`: map a checker error to the
default exit code 0. -/
def monGetProcessExitCode (env : Env) (pid : Int) : Int :=
  let r := checkerGetProcessExitCode env pid
  if r.2 then 0 else r.1

/-- `TaskMonitor.updateTaskExitedStatus`: persist a stopped record with
pid 0, the recovered exit code, `stoppedByTaskd = false` and the retry
count preserved from the snapshot record. -/
def updateTaskExitedStatus (n : String) (info : TaskRuntimeInfo)
    (exitCode : Int) (now : Int) (doc : Doc) : Doc :=
  setTask doc n
    { name := n, status := "stopped", pid := 0, startTime := info.startTime,
      endTime := now, exitCode := exitCode, stoppedByTaskd := false,
      retryNum := info.retryNum }

/-- `TaskMonitor.checkTaskProcess`: probe the snapshot record's pid and,
when the process no longer exists, write the exited-status record. -/
def monCheckTaskProcess (env : Env) (now : Int) (n : String)
    (info : TaskRuntimeInfo) (doc : Doc) : Doc :=
  let st := checkTaskProcess env info.pid
  if st.found then doc
  else updateTaskExitedStatus n info (monGetProcessExitCode env info.pid) now doc

/-- `TaskMonitor.shouldRetryTask`: never for the daemon record or a
task without configuration; otherwise auto-start on, status `stopped`,
not stopped by the operator, and retry budget remaining. -/
def shouldRetryTask (cfgs : String → Option Config) (n : String)
    (info : TaskRuntimeInfo) : Bool :=
  if n == "taskd" then false
  else
    match getTaskConfig cfgs n with
    | none => false
    | some c =>
        c.autoStart && info.status == "stopped" && !info.stoppedByTaskd &&
          (decide (c.maxRetryNum ≤ 0) || decide (info.retryNum < c.maxRetryNum))

/-- `TaskMonitor.shouldLogRetryLimitReached`: an auto-start task,
stopped by nobody, whose retry count has reached a positive limit. -/
def shouldLogRetryLimitReached (cfgs : String → Option Config) (n : String)
    (info : TaskRuntimeInfo) : Bool :=
  if n == "taskd" then false
  else
    match getTaskConfig cfgs n with
    | none => false
    | some c =>
        c.autoStart && info.status == "stopped" && !info.stoppedByTaskd &&
          decide (0 < c.maxRetryNum) && decide (c.maxRetryNum ≤ info.retryNum)

/-- `TaskMonitor.incrementRetryCount`: bump the persisted retry count
of the record, when present (its absence is only a logged error). -/
def incrementRetryCount (doc : Doc) (n : String) : Doc :=
  match getTask doc n with
  | none => doc
  | some i => setTask doc n { i with retryNum := i.retryNum + 1 }

/-- `TaskMonitor.handleRetryFailure`: persist a stopped record with pid
0 and exit code −1, keeping the retry count of the freshly loaded
record; missing records are left alone. -/
def handleRetryFailure (doc : Doc) (n : String) (now : Int) : Doc :=
  match getTask doc n with
  | none => doc
  | some i =>
      setTask doc n
        { name := n, status := "stopped", pid := 0, startTime := i.startTime,
          endTime := now, exitCode := -1, stoppedByTaskd := false,
          retryNum := i.retryNum }

/-- `TaskMonitor.retryTask`: re-invoke `Manager.StartTask`; on failure
record the failure without raising the retry count, on success bump the
retry count. -/
def retryTask (m : Mgr) (doc : Doc) (te : TickEnv) (n : String) : Mgr × Doc :=
  let r := startTask m doc te.env (te.spawns n) te.dspawn te.now n
  if r.2.2 then (r.1, handleRetryFailure r.2.1 n te.now)
  else (r.1, incrementRetryCount r.2.1 n)

/-- One snapshot entry of `TaskMonitor.checkAndRestartTasks`: skip the
daemon record; probe liveness of records the snapshot says are running;
then evaluate restart eligibility ON THE SNAPSHOT record and either
restart or emit the retry-limit notice (the third component collects
the names for which the notice is printed). -/
def tickStep (te : TickEnv) (acc : Mgr × Doc × List String)
    (entry : String × TaskRuntimeInfo) : Mgr × Doc × List String :=
  if entry.1 == "taskd" then acc
  else
    let d1 := if entry.2.status == "running"
              then monCheckTaskProcess te.env te.now entry.1 entry.2 acc.2.1
              else acc.2.1
    if shouldRetryTask te.cfgs entry.1 entry.2 then
      let r := retryTask acc.1 d1 te entry.1
      (r.1, r.2, acc.2.2)
    else if shouldLogRetryLimitReached te.cfgs entry.1 entry.2 then
      (acc.1, d1, acc.2.2 ++ [entry.1])
    else (acc.1, d1, acc.2.2)

/-- `TaskMonitor.checkAndRestartTasks`: load the document once, then
walk its records (the snapshot), threading the evolving document and
manager through the per-entry step. -/
def checkAndRestartTasks (te : TickEnv) (m : Mgr) (doc : Doc) :
    Mgr × Doc × List String :=
  doc.foldl (tickStep te) (m, doc, [])

/-! ## Well-formedness predicates -/

/-- The record-level invariant of the spec: a running record has a
positive pid, and a record with pid 0 is not running. -/
def recOk (i : TaskRuntimeInfo) : Prop :=
  (i.status = "running" → 0 < i.pid) ∧ (i.pid = 0 → i.status ≠ "running")

instance (i : TaskRuntimeInfo) : Decidable (recOk i) := by
  unfold recOk; infer_instance

/-- Document-level invariant: every record satisfies `recOk`. -/
def docOk (d : Doc) : Prop := ∀ p ∈ d, recOk p.2

instance (d : Doc) : Decidable (docOk d) := List.decidableBAll _ d

/-- A held process handle always carries a positive pid (operating
systems hand out positive pids, and `restoreRuntimeState` only attaches
a handle when the recorded pid is positive). -/
def tOk (t : MTask) : Prop := ∀ q, t.pid = some q → 0 < q

instance (t : MTask) : Decidable (tOk t) :=
  match h : t.pid with
  | none => isTrue fun q hq => by rw [h] at hq; cases hq
  | some p =>
      if hp : 0 < p then
        isTrue fun q hq => by rw [h] at hq; cases hq; exact hp
      else isFalse fun hall => hp (hall p h)

/-- Manager-level invariant: every in-memory task satisfies `tOk`. -/
def mgrOk (m : Mgr) : Prop := ∀ p ∈ m.tasks, tOk p.2

instance (m : Mgr) : Decidable (mgrOk m) := List.decidableBAll _ m.tasks

/-- A spawn outcome delivers a positive pid when it succeeds. -/
def spawnOk (o : Option Int) : Prop := ∀ q, o = some q → 0 < q

instance (o : Option Int) : Decidable (spawnOk o) :=
  match o with
  | none => isTrue fun q hq => nomatch hq
  | some p =>
      if hp : 0 < p then
        isTrue fun q hq => by cases hq; exact hp
      else isFalse fun hall => hp (hall p rfl)

/-- Modelled from the spec claim's words, for comparison with the
source's `isDaemonRunningLocked`: daemon liveness WITH genuine
executable-path identity validation — the recorded pid must be owned by
a process whose executable equals this supervisor's own executable. -/
def specValidatedDaemonRunning (doc : Doc) (env : Env) : Bool :=
  match getTask doc "taskd" with
  | none => false
  | some i =>
      i.status == "running" && decide (0 < i.pid) &&
        match env.os i.pid, env.currentExec with
        | some path, some cur => path == cur
        | _, _ => false

/-! ## Concrete scenario values (used by witnesses and counterexamples) -/

/-- Definition file of the scenario task `t1`: auto-start, at most 3
retries. -/
def cfg1 : Config :=
  { name := "t1", executable := "sleep", autoStart := true, maxRetryNum := 3 }

/-- An OS where only pid 99 (the daemon) is alive. -/
def envK : Env :=
  { os := fun p => if p = 99 then some "E" else none, currentExec := some "E" }

/-- An OS where only pid 5 (task `t1`) is alive. -/
def envS : Env :=
  { os := fun p => if p = 5 then some "E" else none, currentExec := some "E" }

/-- An OS where pid 42 is owned by an unrelated program. -/
def env9 : Env :=
  { os := fun p => if p = 42 then some "/usr/bin/vim" else none,
    currentExec := some "/usr/bin/taskd" }

/-- Persisted record of a running daemon with pid 99. -/
def recTaskd : TaskRuntimeInfo :=
  { name := "taskd", status := "running", pid := 99, startTime := 1,
    endTime := 0, exitCode := 0, stoppedByTaskd := false, retryNum := 0 }

/-- Persisted record of `t1` running with pid 7. -/
def recT1run : TaskRuntimeInfo :=
  { name := "t1", status := "running", pid := 7, startTime := 2,
    endTime := 0, exitCode := 0, stoppedByTaskd := false, retryNum := 0 }

/-- Persisted record of `t1` running with pid 5, one retry so far. -/
def recT1run5 : TaskRuntimeInfo :=
  { name := "t1", status := "running", pid := 5, startTime := 2,
    endTime := 0, exitCode := 0, stoppedByTaskd := false, retryNum := 1 }

/-- Persisted record of `t1` stopped with two retries so far. -/
def recT1stop2 : TaskRuntimeInfo :=
  { name := "t1", status := "stopped", pid := 0, startTime := 2,
    endTime := 9, exitCode := 0, stoppedByTaskd := false, retryNum := 2 }

/-- Persisted record of `t1` stopped at the retry limit. -/
def recT1lim : TaskRuntimeInfo :=
  { name := "t1", status := "stopped", pid := 0, startTime := 2,
    endTime := 9, exitCode := 0, stoppedByTaskd := false, retryNum := 3 }

/-- Document for the kill-and-restart scenario: live daemon record plus
`t1` recorded running with pid 7 (a pid that is dead under `envK`). -/
def docC8 : Doc := [("taskd", recTaskd), ("t1", recT1run)]

/-- Document with `t1` at its retry limit. -/
def doc4 : Doc := [("t1", recT1lim)]

/-- Document with the daemon record and `t1` stopped after two
retries. -/
def doc5 : Doc := [("taskd", recTaskd), ("t1", recT1stop2)]

/-- Document with only `t1`, recorded running with pid 5. -/
def doc6 : Doc := [("t1", recT1run5)]

/-- Document whose daemon record points at pid 42. -/
def doc9 : Doc := [("taskd", recTaskd)]

/-- Document claiming a running daemon at (reused) pid 42. -/
def doc42 : Doc :=
  [("taskd",
    { name := "taskd", status := "running", pid := 42, startTime := 1,
      endTime := 0, exitCode := 0, stoppedByTaskd := false, retryNum := 0 })]

/-- In-memory `t1` task object as held by the daemon process after the
task died: stopped, no handle. -/
def mtStopped : MTask :=
  { config := cfg1, status := "stopped", pid := none, startTime := 0,
    exitCode := 0 }

/-- In-memory `t1` task object holding a live handle on pid 5. -/
def mtRun5 : MTask :=
  { config := cfg1, status := "running", pid := some 5, startTime := 2,
    exitCode := 0 }

/-- Daemon-side manager holding only the stopped `t1`. -/
def mD : Mgr := ⟨[("t1", mtStopped)]⟩

/-- Command-side manager holding `t1` running with a live handle. -/
def mS : Mgr := ⟨[("t1", mtRun5)]⟩

/-- Tick environment: daemon pid 99 alive, `t1` config on disk, a
restart of `t1` would spawn pid 8, clock at 100. -/
def te1 : TickEnv :=
  { env := envK, cfgs := fun n => if n = "t1" then some cfg1 else none,
    spawns := fun n => if n = "t1" then some 8 else none,
    dspawn := none, now := 100 }

/-- The same tick environment one interval later. -/
def te2 : TickEnv := { te1 with now := 200 }

/-- Tick environment for the retry-count scenario: a restart of `t1`
spawns pid 9, clock at 300. -/
def te5 : TickEnv :=
  { env := envK, cfgs := fun n => if n = "t1" then some cfg1 else none,
    spawns := fun n => if n = "t1" then some 9 else none,
    dspawn := none, now := 300 }

/-! # Theorems -/

/-! ## Association-list lemmas -/

theorem mem_aset {α : Type} {l : List (String × α)} {n : String} {a : α} :
    ∀ q ∈ aset l n a, q = (n, a) ∨ q ∈ l := by
  induction l with
  | nil =>
      intro q hq
      simp only [aset, List.mem_singleton] at hq
      exact Or.inl hq
  | cons kv tl ih =>
      intro q hq
      obtain ⟨k, v⟩ := kv
      by_cases h : k = n
      · simp only [aset, if_pos h, List.mem_cons] at hq
        rcases hq with h1 | h1
        · exact Or.inl h1
        · exact Or.inr (List.mem_cons_of_mem _ h1)
      · simp only [aset, if_neg h, List.mem_cons] at hq
        rcases hq with h1 | h1
        · exact Or.inr (h1 ▸ List.mem_cons_self _ _)
        · rcases ih q h1 with h2 | h2
          · exact Or.inl h2
          · exact Or.inr (List.mem_cons_of_mem _ h2)

theorem alookup_aset_self {α : Type} (l : List (String × α)) (n : String) (a : α) :
    alookup (aset l n a) n = some a := by
  induction l with
  | nil => simp [aset, alookup]
  | cons kv tl ih =>
      obtain ⟨k, v⟩ := kv
      by_cases h : k = n
      · simp [aset, if_pos h, alookup]
      · simp [aset, if_neg h, alookup, h, ih]

theorem alookup_aset_ne {α : Type} (l : List (String × α)) {n k : String}
    (h : k ≠ n) (a : α) : alookup (aset l n a) k = alookup l k := by
  induction l with
  | nil => simp [aset, alookup, Ne.symm h]
  | cons kv tl ih =>
      obtain ⟨k1, v⟩ := kv
      by_cases h1 : k1 = n
      · subst h1
        simp [aset, alookup, Ne.symm h]
      · simp [aset, if_neg h1, alookup, ih]

theorem mem_of_alookup {α : Type} {l : List (String × α)} {n : String} {a : α}
    (h : alookup l n = some a) : (n, a) ∈ l := by
  induction l with
  | nil => simp [alookup] at h
  | cons kv tl ih =>
      obtain ⟨k, v⟩ := kv
      by_cases h1 : k = n
      · subst h1
        have h2 : v = a := by simpa [alookup] using h
        exact h2 ▸ List.mem_cons_self _ _
      · simp only [alookup, if_neg h1] at h
        exact List.mem_cons_of_mem _ (ih h)

theorem alookup_eq_none_of_not_mem {α : Type} {l : List (String × α)} {n : String}
    (h : n ∉ l.map Prod.fst) : alookup l n = none := by
  induction l with
  | nil => rfl
  | cons kv tl ih =>
      obtain ⟨k, v⟩ := kv
      simp only [List.map_cons, List.mem_cons] at h
      push_neg at h
      simp only [alookup, if_neg (fun hh : k = n => h.1 hh.symm)]
      exact ih h.2

theorem mem_keys_aset {α : Type} {l : List (String × α)} {n x : String} {a : α}
    (hx : x ∈ (aset l n a).map Prod.fst) : x = n ∨ x ∈ l.map Prod.fst := by
  rcases List.mem_map.1 hx with ⟨q, hq, hqx⟩
  rcases mem_aset q hq with h1 | h1
  · subst h1; exact Or.inl hqx.symm
  · exact Or.inr (List.mem_map.2 ⟨q, h1, hqx⟩)

theorem keys_aset_nodup {α : Type} {l : List (String × α)} {n : String} {a : α}
    (h : (l.map Prod.fst).Nodup) : ((aset l n a).map Prod.fst).Nodup := by
  induction l with
  | nil => simp [aset]
  | cons kv tl ih =>
      obtain ⟨k, v⟩ := kv
      simp only [List.map_cons, List.nodup_cons] at h
      by_cases h1 : k = n
      · subst h1
        simpa [aset, List.nodup_cons] using h
      · rw [show aset ((k, v) :: tl) n a = (k, v) :: aset tl n a from by
              simp [aset, h1]]
        simp only [List.map_cons]
        refine List.nodup_cons.2 ⟨?_, ih h.2⟩
        intro hk
        rcases mem_keys_aset hk with h2 | h2
        · exact h1 h2
        · exact h.1 h2

/-! ## `GetRuntimeInfo` and rebuild-save lemmas -/

theorem GetRuntimeInfo_some {t : MTask} {p : Int}
    (hs : t.status = "running") (hp : t.pid = some p) :
    GetRuntimeInfo t =
      some { name := t.config.name, status := "running", pid := p,
             startTime := t.startTime, endTime := 0, exitCode := 0,
             stoppedByTaskd := false, retryNum := 0 } := by
  unfold GetRuntimeInfo
  rw [if_pos hs, hp]

theorem GetRuntimeInfo_none_of_not_running {t : MTask}
    (hs : t.status ≠ "running") : GetRuntimeInfo t = none := by
  unfold GetRuntimeInfo
  rw [if_neg hs]

theorem recOk_of_GetRuntimeInfo {t : MTask} {i : TaskRuntimeInfo}
    (ht : tOk t) (h : GetRuntimeInfo t = some i) : recOk i := by
  unfold GetRuntimeInfo at h
  by_cases hs : t.status = "running"
  · rw [if_pos hs] at h
    cases hp : t.pid with
    | none => rw [hp] at h; cases h
    | some p =>
        rw [hp] at h
        have hpos : 0 < p := ht p hp
        cases h
        exact ⟨fun _ => hpos, fun h0 => absurd (h0 ▸ hpos) (by simp)⟩
  · rw [if_neg hs] at h; cases h

theorem regEntry_none {k : String} {t : MTask}
    (hg : GetRuntimeInfo t = none) : regEntry (k, t) = none := by
  simp [regEntry, hg]

theorem regEntry_some {k : String} {t : MTask} {i : TaskRuntimeInfo}
    (hg : GetRuntimeInfo t = some i) : regEntry (k, t) = some (k, i) := by
  simp [regEntry, hg]

theorem alookup_regular_none {l : List (String × MTask)} {n : String}
    (h : n ∉ l.map Prod.fst) : alookup (regularRecords l) n = none := by
  induction l with
  | nil => rfl
  | cons kv tl ih =>
      obtain ⟨k, t⟩ := kv
      simp only [List.map_cons, List.mem_cons] at h
      push_neg at h
      unfold regularRecords at ih ⊢
      have hkn : k ≠ n := fun hh => h.1 hh.symm
      cases hg : GetRuntimeInfo t with
      | none =>
          rw [List.filterMap_cons_none (regEntry_none hg)]
          exact ih h.2
      | some i =>
          rw [List.filterMap_cons_some (regEntry_some hg)]
          simp only [alookup, if_neg hkn]
          exact ih h.2

theorem alookup_regular {l : List (String × MTask)} {n : String}
    (h : (l.map Prod.fst).Nodup) :
    alookup (regularRecords l) n = (alookup l n).bind GetRuntimeInfo := by
  induction l with
  | nil => rfl
  | cons kv tl ih =>
      obtain ⟨k, t⟩ := kv
      simp only [List.map_cons, List.nodup_cons] at h
      unfold regularRecords at ih ⊢
      by_cases hk : k = n
      · subst hk
        cases hg : GetRuntimeInfo t with
        | none =>
            rw [List.filterMap_cons_none (regEntry_none hg)]
            have h0 := alookup_regular_none (l := tl) (n := k) h.1
            unfold regularRecords at h0
            rw [h0]
            simp [alookup, hg]
        | some i =>
            rw [List.filterMap_cons_some (regEntry_some hg)]
            simp [alookup, hg]
      · cases hg : GetRuntimeInfo t with
        | none =>
            rw [List.filterMap_cons_none (regEntry_none hg)]
            rw [ih h.2]
            simp [alookup, hk]
        | some i =>
            rw [List.filterMap_cons_some (regEntry_some hg)]
            simp only [alookup, if_neg hk]
            exact ih h.2

theorem mem_regular {l : List (String × MTask)} {q : String × TaskRuntimeInfo}
    (hq : q ∈ regularRecords l) :
    ∃ kt ∈ l, kt.1 = q.1 ∧ GetRuntimeInfo kt.2 = some q.2 := by
  unfold regularRecords at hq
  rcases List.mem_filterMap.1 hq with ⟨kt, hkt, hmap⟩
  unfold regEntry at hmap
  cases hg : GetRuntimeInfo kt.2 with
  | none => rw [hg] at hmap; cases hmap
  | some i =>
      rw [hg] at hmap
      have hq2 : q = (kt.1, i) := by simpa using hmap.symm
      subst hq2
      exact ⟨kt, hkt, rfl, hg⟩

theorem docOk_regular {l : List (String × MTask)}
    (hm : ∀ p ∈ l, tOk p.2) : docOk (regularRecords l) := by
  intro q hq
  rcases mem_regular hq with ⟨kt, hkt, _, hg⟩
  exact recOk_of_GetRuntimeInfo (hm kt hkt) hg

theorem mem_builtin {cur : Doc} {p : String × TaskRuntimeInfo}
    (hp : p ∈ builtinRecords cur) : p ∈ cur ∧ p.1 = "taskd" := by
  unfold builtinRecords at hp
  rcases List.mem_filter.1 hp with ⟨h1, h2⟩
  refine ⟨h1, ?_⟩
  simpa [isBuiltinTask] using h2

theorem alookup_overlay_ne {l : Doc} {n : String}
    (h : ∀ p ∈ l, p.1 ≠ n) (acc : Doc) :
    alookup (overlay acc l) n = alookup acc n := by
  induction l generalizing acc with
  | nil => rfl
  | cons p tl ih =>
      unfold overlay at ih ⊢
      simp only [List.foldl_cons]
      rw [ih (fun q hq => h q (List.mem_cons_of_mem _ hq))]
      exact alookup_aset_ne _ (Ne.symm (h p (List.mem_cons_self _ _))) _

theorem docOk_overlay {l : Doc} (hl : ∀ p ∈ l, recOk p.2) {acc : Doc}
    (hacc : docOk acc) : docOk (overlay acc l) := by
  induction l generalizing acc with
  | nil => exact hacc
  | cons p tl ih =>
      unfold overlay at ih ⊢
      simp only [List.foldl_cons]
      refine ih (fun q hq => hl q (List.mem_cons_of_mem _ hq)) ?_
      intro q hq
      rcases mem_aset q hq with h1 | h1
      · exact h1 ▸ hl p (List.mem_cons_self _ _)
      · exact hacc q h1

theorem docOk_saveRuntimeStateDoc {m : Mgr} {cur : Doc}
    (hm : mgrOk m) (hc : docOk cur) : docOk (saveRuntimeStateDoc m cur) := by
  unfold saveRuntimeStateDoc
  refine docOk_overlay (fun p hp => hc p (mem_builtin hp).1) (docOk_regular hm)

theorem alookup_overlay_of_nodup {l : Doc} (h : (l.map Prod.fst).Nodup)
    (acc : Doc) (n : String) :
    alookup (overlay acc l) n =
      match alookup l n with
      | some i => some i
      | none => alookup acc n := by
  induction l generalizing acc with
  | nil => rfl
  | cons p tl ih =>
      obtain ⟨k, v⟩ := p
      simp only [List.map_cons, List.nodup_cons] at h
      unfold overlay at ih ⊢
      simp only [List.foldl_cons]
      rw [ih h.2]
      by_cases hk : k = n
      · subst hk
        rw [alookup_eq_none_of_not_mem h.1]
        simp [alookup, alookup_aset_self]
      · cases halt : alookup tl n with
        | some i => simp [alookup, hk, halt]
        | none =>
            simp only [alookup, if_neg hk, halt]
            exact alookup_aset_ne acc (fun hh => hk hh.symm) v

theorem alookup_builtinRecords (cur : Doc) :
    alookup (builtinRecords cur) "taskd" = alookup cur "taskd" := by
  induction cur with
  | nil => rfl
  | cons p tl ih =>
      obtain ⟨k, v⟩ := p
      unfold builtinRecords at ih ⊢
      by_cases hk : k = "taskd"
      · subst hk
        rw [List.filter_cons_of_pos (by simp [isBuiltinTask])]
        simp [alookup]
      · rw [List.filter_cons_of_neg (by simp [isBuiltinTask, hk])]
        rw [ih]
        simp [alookup, hk]

theorem builtin_keys_nodup {cur : Doc} (h : (cur.map Prod.fst).Nodup) :
    ((builtinRecords cur).map Prod.fst).Nodup := by
  unfold builtinRecords
  exact h.sublist (List.Sublist.map _ (List.filter_sublist _))

/-! ## Invariant preservation by every document writer -/

theorem recOk_mk_stopped {nm : String} {st et ec : Int} {sb : Bool} {rn : Int} :
    recOk { name := nm, status := "stopped", pid := 0, startTime := st,
            endTime := et, exitCode := ec, stoppedByTaskd := sb,
            retryNum := rn } := by
  constructor
  · intro h; simp at h
  · intro _; simp

theorem recOk_running_pos {i : TaskRuntimeInfo} (hp : 0 < i.pid) : recOk i :=
  ⟨fun _ => hp, fun h0 => absurd (h0 ▸ hp) (lt_irrefl 0)⟩

theorem recOk_update {i j : TaskRuntimeInfo} (hi : recOk i)
    (hs : j.status = i.status) (hp : j.pid = i.pid) : recOk j := by
  unfold recOk
  rw [hs, hp]
  exact hi

theorem docOk_aset {d : Doc} (hd : docOk d) {n : String} {i : TaskRuntimeInfo}
    (hi : recOk i) : docOk (aset d n i) := by
  intro q hq
  rcases mem_aset q hq with h1 | h1
  · rw [h1]; exact hi
  · exact hd q h1

theorem recOk_of_getTask {d : Doc} {n : String} {i : TaskRuntimeInfo}
    (hd : docOk d) (h : getTask d n = some i) : recOk i :=
  hd (n, i) (mem_of_alookup h)

theorem docOk_updateTaskExitedStatus {doc : Doc} (h : docOk doc)
    (n : String) (info : TaskRuntimeInfo) (ec now : Int) :
    docOk (updateTaskExitedStatus n info ec now doc) := by
  unfold updateTaskExitedStatus setTask
  exact docOk_aset h recOk_mk_stopped

theorem docOk_monCheckTaskProcess {doc : Doc} (h : docOk doc)
    (env : Env) (now : Int) (n : String) (info : TaskRuntimeInfo) :
    docOk (monCheckTaskProcess env now n info doc) := by
  simp only [monCheckTaskProcess]
  split
  · exact h
  · exact docOk_updateTaskExitedStatus h _ _ _ _

theorem docOk_setTaskStoppedByTaskd {doc : Doc} (h : docOk doc)
    (n : String) (flag : Bool) (now : Int) :
    docOk (setTaskStoppedByTaskd doc n flag now) := by
  unfold setTaskStoppedByTaskd setTask
  split
  · exact h
  · rename_i i hg
    have hi : recOk i := recOk_of_getTask h hg
    split
    · exact docOk_aset h recOk_mk_stopped
    · exact docOk_aset h (recOk_update hi rfl rfl)

theorem docOk_resetTaskRetryCount {doc : Doc} (h : docOk doc) (n : String) :
    docOk (resetTaskRetryCount doc n) := by
  unfold resetTaskRetryCount
  cases hg : getTask doc n with
  | none => exact h
  | some i => exact docOk_aset h (recOk_update (recOk_of_getTask h hg) rfl rfl)

theorem docOk_incrementRetryCount {doc : Doc} (h : docOk doc) (n : String) :
    docOk (incrementRetryCount doc n) := by
  unfold incrementRetryCount
  cases hg : getTask doc n with
  | none => exact h
  | some i => exact docOk_aset h (recOk_update (recOk_of_getTask h hg) rfl rfl)

theorem docOk_handleRetryFailure {doc : Doc} (h : docOk doc)
    (n : String) (now : Int) : docOk (handleRetryFailure doc n now) := by
  unfold handleRetryFailure
  cases hg : getTask doc n with
  | none => exact h
  | some i => exact docOk_aset h recOk_mk_stopped

theorem docOk_startDaemonOp {doc : Doc} (h : docOk doc) (env : Env)
    {dspawn : Option Int} (hd : spawnOk dspawn) (now : Int) :
    docOk (startDaemonOp doc env dspawn now).1 := by
  unfold startDaemonOp
  split
  · exact h
  · split
    · exact h
    · cases hdp : dspawn with
      | none => exact h
      | some dpid =>
          exact docOk_aset h (recOk_running_pos (hd dpid hdp))

theorem docOk_stopDaemonOp {doc : Doc} (h : docOk doc) (env : Env) (now : Int) :
    docOk (stopDaemonOp doc env now).1 := by
  unfold stopDaemonOp
  split
  · exact h
  · split
    · exact h
    · exact docOk_aset h recOk_mk_stopped

theorem docOk_ensureDaemonRunning {doc : Doc} (h : docOk doc) (env : Env)
    {dspawn : Option Int} (hd : spawnOk dspawn) (now : Int) :
    docOk (ensureDaemonRunning doc env dspawn now).1 := by
  unfold ensureDaemonRunning
  split
  · exact h
  · exact docOk_startDaemonOp h env hd now

theorem docOk_ensureDaemonForCommand {doc : Doc} (h : docOk doc) (m : Mgr)
    (env : Env) {dspawn : Option Int} (hd : spawnOk dspawn) (now : Int) :
    docOk (ensureDaemonForCommand m doc env dspawn now) := by
  unfold ensureDaemonForCommand
  split
  · exact docOk_ensureDaemonRunning h env hd now
  · exact h

theorem tOk_taskStart {t : MTask} (ht : tOk t) {spawn : Option Int}
    (hs : spawnOk spawn) (now : Int) : tOk (taskStart t spawn now).1 := by
  unfold taskStart
  split
  · exact ht
  · cases spawn with
    | none => exact ht
    | some p =>
        intro q hq
        cases hq
        exact hs p rfl

theorem tOk_taskStop {t : MTask} (ht : tOk t) (env : Env) :
    tOk (taskStop t env).1 := by
  unfold taskStop
  split
  · exact ht
  · rcases hp : t.pid with _ | p <;> simp only [hp]
    · exact ht
    · split <;> (intro q hq; simp at hq)

theorem tOk_of_lookup {m : Mgr} {n : String} {t : MTask}
    (hm : mgrOk m) (hl : lookupMTask m n = some t) : tOk t :=
  hm (n, t) (mem_of_alookup hl)

theorem mgrOk_setMTask {m : Mgr} (hm : mgrOk m) {n : String} {t : MTask}
    (ht : tOk t) : mgrOk (setMTask m n t) := by
  intro q hq
  rcases mem_aset q hq with h1 | h1
  · rw [h1]; exact ht
  · exact hm q h1

theorem startTask_ok {m : Mgr} {doc : Doc} {env : Env} {spawn dspawn : Option Int}
    {now : Int} {n : String} (h : docOk doc) (hm : mgrOk m)
    (hs : spawnOk spawn) (hd : spawnOk dspawn) :
    docOk (startTask m doc env spawn dspawn now n).2.1 ∧
      mgrOk (startTask m doc env spawn dspawn now n).1 := by
  unfold startTask
  have h0 : docOk (ensureDaemonForCommand m doc env dspawn now) :=
    docOk_ensureDaemonForCommand h m env hd now
  split
  · exact ⟨docOk_startDaemonOp h0 env hd now, hm⟩
  · split
    · exact ⟨h0, hm⟩
    · rename_i t hl
      have ht' : tOk (taskStart t spawn now).1 :=
        tOk_taskStart (tOk_of_lookup hm hl) hs now
      have hm' : mgrOk (setMTask m n (taskStart t spawn now).1) :=
        mgrOk_setMTask hm ht'
      by_cases he : (taskStart t spawn now).2 = true
      · rw [if_pos he]
        exact ⟨h0, hm'⟩
      · rw [if_neg he]
        exact ⟨docOk_saveRuntimeStateDoc hm' (docOk_resetTaskRetryCount h0 n), hm'⟩

theorem stopTask_ok {m : Mgr} {doc : Doc} {env : Env} {now : Int} {n : String}
    (h : docOk doc) (hm : mgrOk m) :
    docOk (stopTask m doc env now n).2.1 ∧ mgrOk (stopTask m doc env now n).1 := by
  unfold stopTask
  split
  · exact ⟨docOk_stopDaemonOp h env now, hm⟩
  · split
    · exact ⟨h, hm⟩
    · rename_i t hl
      have hm' : mgrOk (setMTask m n (taskStop t env).1) :=
        mgrOk_setMTask hm (tOk_taskStop (tOk_of_lookup hm hl) env)
      exact ⟨docOk_saveRuntimeStateDoc hm'
        (docOk_setTaskStoppedByTaskd h n true now), hm'⟩

theorem restartTask_ok {m : Mgr} {doc : Doc} {env : Env} {spawn dspawn : Option Int}
    {now : Int} {n : String} (h : docOk doc) (hm : mgrOk m)
    (hs : spawnOk spawn) (hd : spawnOk dspawn) :
    docOk (restartTask m doc env spawn dspawn now n).2.1 ∧
      mgrOk (restartTask m doc env spawn dspawn now n).1 := by
  unfold restartTask
  have h0 : docOk (ensureDaemonForCommand m doc env dspawn now) :=
    docOk_ensureDaemonForCommand h m env hd now
  split
  · exact ⟨docOk_startDaemonOp (docOk_stopDaemonOp h0 env now) env hd now, hm⟩
  · split
    · exact ⟨h0, hm⟩
    · rename_i t hl
      have hts : tOk (if t.status = "running" then taskStop t env else (t, false)).1 := by
        split
        · exact tOk_taskStop (tOk_of_lookup hm hl) env
        · exact tOk_of_lookup hm hl
      by_cases hse : (if t.status = "running" then taskStop t env else (t, false)).2 = true
      · rw [if_pos hse]
        exact ⟨h0, mgrOk_setMTask hm hts⟩
      · rw [if_neg hse]
        have ht' : tOk (taskStart
            (if t.status = "running" then taskStop t env else (t, false)).1 spawn now).1 :=
          tOk_taskStart hts hs now
        have hm' := mgrOk_setMTask (n := n) hm ht'
        by_cases he : (taskStart
            (if t.status = "running" then taskStop t env else (t, false)).1 spawn now).2 = true
        · rw [if_pos he]
          exact ⟨h0, hm'⟩
        · rw [if_neg he]
          exact ⟨docOk_saveRuntimeStateDoc hm' (docOk_resetTaskRetryCount h0 n), hm'⟩

theorem retryTask_ok {m : Mgr} {doc : Doc} {te : TickEnv} {n : String}
    (h : docOk doc) (hm : mgrOk m) (hs : spawnOk (te.spawns n))
    (hd : spawnOk te.dspawn) :
    docOk (retryTask m doc te n).2 ∧ mgrOk (retryTask m doc te n).1 := by
  simp only [retryTask]
  have hst := @startTask_ok m doc te.env (te.spawns n) te.dspawn te.now n h hm hs hd
  by_cases he : (startTask m doc te.env (te.spawns n) te.dspawn te.now n).2.2 = true
  · rw [if_pos he]
    exact ⟨docOk_handleRetryFailure hst.1 n te.now, hst.2⟩
  · rw [if_neg he]
    exact ⟨docOk_incrementRetryCount hst.1 n, hst.2⟩

theorem tickStep_ok {te : TickEnv} {acc : Mgr × Doc × List String}
    (hacc : docOk acc.2.1 ∧ mgrOk acc.1)
    (hsp : ∀ k, spawnOk (te.spawns k)) (hd : spawnOk te.dspawn)
    (entry : String × TaskRuntimeInfo) :
    docOk (tickStep te acc entry).2.1 ∧ mgrOk (tickStep te acc entry).1 := by
  simp only [tickStep]
  have hD : docOk (monCheckTaskProcess te.env te.now entry.1 entry.2 acc.2.1) :=
    docOk_monCheckTaskProcess hacc.1 te.env te.now entry.1 entry.2
  split
  · exact hacc
  · split
    · split
      · exact retryTask_ok hD hacc.2 (hsp entry.1) hd
      · exact retryTask_ok hacc.1 hacc.2 (hsp entry.1) hd
    · split
      · split
        · exact ⟨hD, hacc.2⟩
        · exact ⟨hacc.1, hacc.2⟩
      · split
        · exact ⟨hD, hacc.2⟩
        · exact ⟨hacc.1, hacc.2⟩

theorem foldl_tickStep_ok {te : TickEnv}
    (hsp : ∀ k, spawnOk (te.spawns k)) (hd : spawnOk te.dspawn)
    (entries : List (String × TaskRuntimeInfo)) :
    ∀ acc : Mgr × Doc × List String, docOk acc.2.1 → mgrOk acc.1 →
      docOk (entries.foldl (tickStep te) acc).2.1 ∧
        mgrOk (entries.foldl (tickStep te) acc).1 := by
  induction entries with
  | nil => exact fun acc h1 h2 => ⟨h1, h2⟩
  | cons e tl ih =>
      intro acc h1 h2
      simp only [List.foldl_cons]
      have hstep := tickStep_ok ⟨h1, h2⟩ hsp hd e
      exact ih _ hstep.1 hstep.2

theorem checkAndRestartTasks_ok {te : TickEnv} {m : Mgr} {doc : Doc}
    (h : docOk doc) (hm : mgrOk m)
    (hsp : ∀ k, spawnOk (te.spawns k)) (hd : spawnOk te.dspawn) :
    docOk (checkAndRestartTasks te m doc).2.1 ∧
      mgrOk (checkAndRestartTasks te m doc).1 := by
  unfold checkAndRestartTasks
  exact foldl_tickStep_ok hsp hd doc (m, doc, []) h hm

/-! ## Success-path lemmas -/

theorem taskStart_success {t : MTask} {spawn : Option Int} {now : Int}
    (he : (taskStart t spawn now).2 = false) :
    (taskStart t spawn now).1.status = "running" ∧
      (taskStart t spawn now).1.pid = spawn ∧ spawn ≠ none := by
  by_cases hs : t.status = "running"
  · unfold taskStart at he
    rw [if_pos hs] at he
    simp at he
  · cases hsp : spawn with
    | none =>
        rw [hsp] at he
        simp [taskStart, hs] at he
    | some p =>
        unfold taskStart
        rw [if_neg hs]
        exact ⟨rfl, rfl, by simp⟩

theorem taskStop_stopped {t : MTask} {env : Env} {p : Int}
    (ht : t.status = "running") (hp : t.pid = some p) :
    (taskStop t env).1.status = "stopped" ∧ (taskStop t env).1.pid = none := by
  unfold taskStop
  rw [if_neg (by simp [ht])]
  simp only [hp]
  split <;> exact ⟨rfl, rfl⟩

theorem builtin_keys_ne {cur : Doc} {n : String} (hnn : n ≠ "taskd") :
    ∀ p ∈ builtinRecords cur, p.1 ≠ n := by
  intro q hq
  rw [(mem_builtin hq).2]
  exact fun hh => hnn hh.symm

theorem getTask_save_setMTask {m : Mgr} {n : String} {t' : MTask} {cur : Doc}
    (hb : isBuiltinTask n = false) (hk : (m.tasks.map Prod.fst).Nodup) :
    getTask (saveRuntimeStateDoc (setMTask m n t') cur) n = GetRuntimeInfo t' := by
  have hnn : n ≠ "taskd" := by
    intro hh
    rw [hh] at hb
    simp [isBuiltinTask] at hb
  unfold saveRuntimeStateDoc getTask
  rw [alookup_overlay_ne (builtin_keys_ne hnn)]
  simp only [setMTask]
  rw [alookup_regular (keys_aset_nodup hk)]
  rw [alookup_aset_self m.tasks n t']
  rfl

theorem getTask_save_nonbuiltin {m : Mgr} {n : String} {cur : Doc}
    (hk : (m.tasks.map Prod.fst).Nodup) (hnn : n ≠ "taskd") :
    getTask (saveRuntimeStateDoc m cur) n = (lookupMTask m n).bind GetRuntimeInfo := by
  unfold saveRuntimeStateDoc getTask
  rw [alookup_overlay_ne (builtin_keys_ne hnn)]
  exact alookup_regular hk

theorem checkTaskProcess_ext {env env2 : Env} {pid : Int}
    (hos : (env.os pid).isSome = (env2.os pid).isSome)
    (hce : env.currentExec.isSome = env2.currentExec.isSome) :
    checkTaskProcess env pid = checkTaskProcess env2 pid := by
  unfold checkTaskProcess
  by_cases hp : pid ≤ 0
  · rw [if_pos hp, if_pos hp]
  · rw [if_neg hp, if_neg hp]
    cases h1 : env.os pid with
    | none =>
        cases h2 : env2.os pid with
        | none => rfl
        | some path2 => rw [h1, h2] at hos; simp at hos
    | some path =>
        cases h2 : env2.os pid with
        | none => rw [h1, h2] at hos; simp at hos
        | some path2 =>
            cases h3 : env.currentExec with
            | none =>
                cases h4 : env2.currentExec with
                | none => rfl
                | some ce2 => rw [h3, h4] at hce; simp at hce
            | some ce =>
                cases h4 : env2.currentExec with
                | none => rw [h3, h4] at hce; simp at hce
                | some ce2 => rfl

/-! ## Claim theorems -/

/-- C2 counterexample: the claim asserts that EVERY code path that
persists the document first copies the current file to a backup path.
`Manager.saveRuntimeStateWithData` (manager.go) persists the document
with a bare `os.WriteFile`: at this concrete input the write succeeds
(the primary file now holds the new document) yet no backup of the
previous version exists anywhere. -/
theorem c2_counterexample :
    (managerSaveWithData ⟨some (FileData.valid doc6), none, none, []⟩ docC8).primary
        = some (FileData.valid docC8) ∧
    (managerSaveWithData ⟨some (FileData.valid doc6), none, none, []⟩ docC8).backup
        = none :=
  ⟨rfl, rfl⟩

/-- C2 (amended): writes through `FileStateManager.saveRuntimeStateUnsafe`
back up the current file (when it exists), stage the new content in a
temporary file, and atomically rename it over the target — at every
observable intermediate step the primary file holds either the old or
the new content, and after success the backup holds the previous
version; the Manager-side path `saveRuntimeStateWithData` instead
rewrites the primary file directly and leaves the backup untouched. -/
theorem c2_amended (fs : StoreFS) (d : Doc) :
    (∀ s ∈ fsmSaveSteps fs d,
        s.primary = fs.primary ∨ s.primary = some (FileData.valid d)) ∧
    (fsmSave fs d).primary = some (FileData.valid d) ∧
    (∀ c, fs.primary = some c → (fsmSave fs d).backup = some c) ∧
    (managerSaveWithData fs d).primary = some (FileData.valid d) ∧
    (managerSaveWithData fs d).backup = fs.backup := by
  refine ⟨?_, rfl, ?_, rfl, rfl⟩
  · intro s hs
    unfold fsmSaveSteps at hs
    by_cases hp : fs.primary.isSome
    · rw [if_pos hp] at hs
      simp only [List.mem_cons, List.not_mem_nil, or_false] at hs
      rcases hs with rfl | rfl | rfl | rfl
      · exact Or.inl rfl
      · exact Or.inl rfl
      · exact Or.inl rfl
      · exact Or.inr rfl
    · rw [if_neg hp] at hs
      simp only [List.mem_cons, List.not_mem_nil, or_false] at hs
      rcases hs with rfl | rfl | rfl | rfl
      · exact Or.inl rfl
      · exact Or.inl rfl
      · exact Or.inl rfl
      · exact Or.inr rfl
  · intro c hc
    unfold fsmSave
    rw [if_pos (by rw [hc]; rfl)]
    exact hc

/-- C2 witness: a concrete store save through the FileStateManager path
keeps a backup of the previous version and installs the new document. -/
theorem c2_witness :
    (fsmSave ⟨some (FileData.valid doc6), none, none, []⟩ docC8).backup
        = some (FileData.valid doc6) ∧
    (fsmSave ⟨some (FileData.valid doc6), none, none, []⟩ docC8).primary
        = some (FileData.valid docC8) :=
  ⟨(c2_amended ⟨some (FileData.valid doc6), none, none, []⟩ docC8).2.2.1
      (FileData.valid doc6) rfl,
   (c2_amended ⟨some (FileData.valid doc6), none, none, []⟩ docC8).2.1⟩

/-- C3: reading the document through
`FileStateManager.loadRuntimeStateUnsafe` recovers from the backup on a
parse failure of the primary file and rewrites the primary from the
backup; when the backup is missing or also corrupt, the primary is
renamed aside to a timestamped quarantine entry and the empty document
is returned; a parseable or missing primary is returned as-is.  In every
case a document is returned — corruption is never surfaced as an
error. -/
theorem c3_corruption_recovery (fs : StoreFS) (d : Doc) (now : Int) :
    (fs.primary = some FileData.corrupt → fs.backup = some (FileData.valid d) →
        loadRuntimeStateUnsafe fs now = (d, fsmSave fs d) ∧
        (fsmSave fs d).primary = some (FileData.valid d)) ∧
    (fs.primary = some FileData.corrupt →
        (fs.backup = none ∨ fs.backup = some FileData.corrupt) →
        loadRuntimeStateUnsafe fs now =
          ([], { fs with primary := none,
                         quarantine := (now, FileData.corrupt) :: fs.quarantine })) ∧
    (∀ d0, fs.primary = some (FileData.valid d0) →
        loadRuntimeStateUnsafe fs now = (d0, fs)) ∧
    (fs.primary = none → loadRuntimeStateUnsafe fs now = ([], fs)) := by
  refine ⟨?_, ?_, ?_, ?_⟩
  · intro hp hb
    refine ⟨?_, rfl⟩
    simp [loadRuntimeStateUnsafe, hp, recoverCorruptedState, hb]
  · intro hp hb
    rcases hb with hb | hb <;>
      simp [loadRuntimeStateUnsafe, hp, recoverCorruptedState, hb,
        backupCorruptedState]
  · intro d0 hp
    simp [loadRuntimeStateUnsafe, hp]
  · intro hp
    simp [loadRuntimeStateUnsafe, hp]

/-- C3 witness: a corrupted primary with a valid backup yields the
backup's document and a rewritten primary; a corrupted primary without
any backup yields the empty document and a quarantined file. -/
theorem c3_witness :
    loadRuntimeStateUnsafe ⟨some FileData.corrupt, some (FileData.valid doc6), none, []⟩ 7
        = (doc6, fsmSave ⟨some FileData.corrupt, some (FileData.valid doc6), none, []⟩ doc6) ∧
    loadRuntimeStateUnsafe ⟨some FileData.corrupt, none, none, []⟩ 7
        = ([], ⟨none, none, none, [(7, FileData.corrupt)]⟩) :=
  ⟨((c3_corruption_recovery ⟨some FileData.corrupt, some (FileData.valid doc6), none, []⟩
        doc6 7).1 rfl rfl).1,
   (c3_corruption_recovery ⟨some FileData.corrupt, none, none, []⟩ doc6 7).2.1
      rfl (Or.inl rfl)⟩

/-- C4 counterexample: the claim says only a ONE-TIME retry-limit notice
is emitted.  In the code `shouldLogRetryLimitReached` is a stateless
per-tick predicate: at this concrete input (a task stopped at its retry
limit) the monitor emits the notice on the first tick, leaves the
document unchanged, and emits the very same notice again on the next
tick. -/
theorem c4_counterexample :
    (checkAndRestartTasks te1 mD doc4).2.2 = ["t1"] ∧
    (checkAndRestartTasks te1 mD doc4).2.1 = doc4 ∧
    (checkAndRestartTasks te2 (checkAndRestartTasks te1 mD doc4).1
        (checkAndRestartTasks te1 mD doc4).2.1).2.2 = ["t1"] := by
  refine ⟨?_, ?_, ?_⟩ <;> decide

/-- C4 (amended): for a non-daemon task with a configuration on disk,
the monitor deems the task restart-eligible exactly when auto-start is
on, the record is stopped, not stopped by the operator, and the retry
budget remains (`maxRetry ≤ 0` meaning unlimited); once
`retryCount ≥ maxRetry > 0` no restart fires and the retry-limit notice
condition holds — and since that condition is a stateless function of
the current record, the notice is emitted on EVERY tick while it
persists, not once. -/
theorem c4_amended (cfgs : String → Option Config) (n : String)
    (info : TaskRuntimeInfo) (c : Config)
    (hn : n ≠ "taskd") (hc : cfgs n = some c) :
    (shouldRetryTask cfgs n info = true ↔
      (c.autoStart = true ∧ info.status = "stopped" ∧
        info.stoppedByTaskd = false ∧
        (c.maxRetryNum ≤ 0 ∨ info.retryNum < c.maxRetryNum))) ∧
    (0 < c.maxRetryNum → c.maxRetryNum ≤ info.retryNum →
        shouldRetryTask cfgs n info = false) ∧
    (shouldLogRetryLimitReached cfgs n info = true ↔
      (c.autoStart = true ∧ info.status = "stopped" ∧
        info.stoppedByTaskd = false ∧
        0 < c.maxRetryNum ∧ c.maxRetryNum ≤ info.retryNum)) := by
  have hb : (n == "taskd") = false := by
    simp [hn]
  have h1 : shouldRetryTask cfgs n info = true ↔
      (c.autoStart = true ∧ info.status = "stopped" ∧
        info.stoppedByTaskd = false ∧
        (c.maxRetryNum ≤ 0 ∨ info.retryNum < c.maxRetryNum)) := by
    simp [shouldRetryTask, hb, getTaskConfig, isBuiltinTask, hc,
      and_assoc]
  refine ⟨h1, ?_, ?_⟩
  · intro hpos hle
    cases hsr : shouldRetryTask cfgs n info with
    | false => rfl
    | true =>
        rcases h1.1 hsr with ⟨_, _, _, hd | hd⟩ <;> omega
  · simp [shouldLogRetryLimitReached, hb, getTaskConfig, isBuiltinTask, hc,
      and_assoc]

/-- C4 witness: a stopped task under its retry limit is eligible; one at
the limit triggers the notice condition and is not eligible. -/
theorem c4_witness :
    shouldRetryTask te1.cfgs "t1" recT1stop2 = true ∧
    shouldRetryTask te1.cfgs "t1" recT1lim = false ∧
    shouldLogRetryLimitReached te1.cfgs "t1" recT1lim = true :=
  ⟨(c4_amended te1.cfgs "t1" recT1stop2 cfg1 (by decide) (by decide)).1.2
      (by decide),
   (c4_amended te1.cfgs "t1" recT1lim cfg1 (by decide) (by decide)).2.1
      (by decide) (by decide),
   (c4_amended te1.cfgs "t1" recT1lim cfg1 (by decide) (by decide)).2.2.2
      (by decide)⟩

/-- C9 counterexample: the claim says a pid reused by an unrelated
process is rejected by executable-path comparison.  Here the persisted
daemon record points at pid 42, which is owned by `/usr/bin/vim` while
the supervisor's own executable is `/usr/bin/taskd`; the code's
`isDaemonRunningLocked` nevertheless reports a live daemon, while the
claimed identity-validating check (modelled from the spec's words)
rejects it. -/
theorem c9_counterexample :
    isDaemonRunningLocked doc42 env9 = true ∧
    specValidatedDaemonRunning doc42 env9 = false ∧
    env9.os 42 = some "/usr/bin/vim" ∧
    env9.currentExec = some "/usr/bin/taskd" := by
  refine ⟨?_, ?_, ?_, ?_⟩ <;> decide

/-- C9 (amended): the liveness check reports a running daemon exactly
when the persisted record is `running` with a positive pid, a process
with that pid exists, and `os.Executable()` succeeds — and its verdict
is invariant under changing WHICH executables own the pids, because
`getProcessExecutablePath` never inspects the target process; so a
reused pid is not rejected. -/
theorem c9_amended (doc : Doc) (env : Env) (i : TaskRuntimeInfo)
    (h : getTask doc "taskd" = some i) :
    (isDaemonRunningLocked doc env = true ↔
      (i.status = "running" ∧ 0 < i.pid ∧ (env.os i.pid).isSome = true ∧
        env.currentExec.isSome = true)) ∧
    (∀ env2 : Env, (∀ q : Int, (env.os q).isSome = (env2.os q).isSome) →
        env.currentExec.isSome = env2.currentExec.isSome →
        isDaemonRunningLocked doc env = isDaemonRunningLocked doc env2) := by
  constructor
  · simp only [isDaemonRunningLocked, h]
    by_cases hs : i.status = "running"
    · rw [if_neg (fun hc => hc hs)]
      simp only [checkTaskProcess]
      by_cases hp : i.pid ≤ 0
      · rw [if_pos hp]
        simp only [hs, true_and]
        constructor
        · intro hcon; simp at hcon
        · intro hcon; omega
      · rw [if_neg hp]
        cases ho : env.os i.pid with
        | none => simp [hs, ho]
        | some path =>
            cases hce : env.currentExec with
            | none => simp [hs, ho, hce]
            | some ce =>
                simp [hs, ho, hce]
                omega
    · rw [if_pos hs]
      simp [hs]
  · intro env2 hos hce
    simp only [isDaemonRunningLocked, h]
    by_cases hs : i.status = "running"
    · rw [if_neg (fun hc => hc hs), if_neg (fun hc => hc hs)]
      rw [checkTaskProcess_ext (hos i.pid) hce]
    · rw [if_pos hs, if_pos hs]

/-- C9 witness: a persisted running daemon record whose pid is alive is
reported as running. -/
theorem c9_witness : isDaemonRunningLocked doc9 envK = true :=
  ((c9_amended doc9 envK recTaskd (by decide)).1).2 (by decide)

/-- C6 counterexample: the claim says stopTask leaves the task's
persisted record with `stoppedByOperator = true` and status `stopped`.
At this concrete input (running task `t1`, live process, stop succeeds)
the final persisted document after `stopTask` contains NO record for
`t1` at all: the closing `saveRuntimeState` rebuilds the document from
currently-running tasks only and drops the record the intermediate save
had just written. -/
theorem c6_counterexample :
    (stopTask mS doc6 envS 50 "t1").2.2 = false ∧
    getTask (stopTask mS doc6 envS 50 "t1").2.1 "t1" = none := by
  refine ⟨?_, ?_⟩ <;> decide

/-- C6 (amended): for an existing non-builtin task that is running with
a live process handle, `stopTask` first persists the record with
`stoppedByOperator = true`, status `stopped` and pid 0 (the intermediate
`setTaskStoppedByTaskd` save), but the unconditional final
`saveRuntimeState` rebuilds the document from live tasks and removes the
stopped task's record, so the final document holds no record for it. -/
theorem c6_amended (m : Mgr) (doc : Doc) (env : Env) (now : Int) (n : String)
    (t : MTask) (p : Int) (i : TaskRuntimeInfo)
    (hb : isBuiltinTask n = false) (hk : (m.tasks.map Prod.fst).Nodup)
    (hl : lookupMTask m n = some t) (ht : t.status = "running")
    (hp : t.pid = some p) (hi : getTask doc n = some i) :
    getTask (setTaskStoppedByTaskd doc n true now) n =
      some { i with stoppedByTaskd := true, endTime := now,
                    status := "stopped", pid := 0 } ∧
    getTask (stopTask m doc env now n).2.1 n = none := by
  constructor
  · have h1 : setTaskStoppedByTaskd doc n true now
        = setTask doc n { i with stoppedByTaskd := true, endTime := now,
                                 status := "stopped", pid := 0 } := by
      simp only [setTaskStoppedByTaskd, hi, if_true]
    rw [h1]
    exact alookup_aset_self doc n _
  · simp only [stopTask, hb, Bool.false_eq_true, if_false, hl]
    rw [getTask_save_setMTask hb hk]
    exact GetRuntimeInfo_none_of_not_running
      (by rw [(taskStop_stopped ht hp).1]; simp)

/-- C6 witness: the concrete stop of running task `t1` — the
intermediate save carries the operator-stop flag, the final document has
no `t1` record. -/
theorem c6_witness :
    getTask (setTaskStoppedByTaskd doc6 "t1" true 50) "t1" =
      some { recT1run5 with stoppedByTaskd := true, endTime := 50,
                            status := "stopped", pid := 0 } ∧
    getTask (stopTask mS doc6 envS 50 "t1").2.1 "t1" = none :=
  c6_amended mS doc6 envS 50 "t1" mtRun5 5 recT1run5 (by decide) (by decide)
    (by decide) (by decide) (by decide) (by decide)

/-- C7: whenever `startTask` or `restartTask` on an existing non-builtin
task succeeds, the task's record in the final persisted document has
`retryCount = 0` (the manual-intervention reset; the final rebuild-save
writes the fresh running record, whose retry counter is zero). -/
theorem c7_manual_start_resets_retry (m : Mgr) (doc : Doc) (env : Env)
    (spawn dspawn : Option Int) (now : Int) (n : String)
    (hb : isBuiltinTask n = false) (hk : (m.tasks.map Prod.fst).Nodup) :
    ((startTask m doc env spawn dspawn now n).2.2 = false →
        (getTask (startTask m doc env spawn dspawn now n).2.1 n).map
            TaskRuntimeInfo.retryNum = some 0) ∧
    ((restartTask m doc env spawn dspawn now n).2.2 = false →
        (getTask (restartTask m doc env spawn dspawn now n).2.1 n).map
            TaskRuntimeInfo.retryNum = some 0) := by
  constructor
  · intro he
    cases hl : lookupMTask m n with
    | none =>
        have heq : startTask m doc env spawn dspawn now n
            = (m, ensureDaemonForCommand m doc env dspawn now, true) := by
          simp only [startTask, hb, Bool.false_eq_true, if_false, hl]
        rw [heq] at he
        simp at he
    | some t =>
        have heq : startTask m doc env spawn dspawn now n
            = if (taskStart t spawn now).2 = true then
                (setMTask m n (taskStart t spawn now).1,
                  ensureDaemonForCommand m doc env dspawn now, true)
              else
                (setMTask m n (taskStart t spawn now).1,
                  saveRuntimeStateDoc (setMTask m n (taskStart t spawn now).1)
                    (resetTaskRetryCount
                      (ensureDaemonForCommand m doc env dspawn now) n),
                  false) := by
          simp only [startTask, hb, Bool.false_eq_true, if_false, hl]
        rw [heq] at he ⊢
        by_cases h2 : (taskStart t spawn now).2 = true
        · rw [if_pos h2] at he
          simp at he
        · rw [if_neg h2]
          show (getTask (saveRuntimeStateDoc (setMTask m n (taskStart t spawn now).1)
              (resetTaskRetryCount
                (ensureDaemonForCommand m doc env dspawn now) n)) n).map
              TaskRuntimeInfo.retryNum = some 0
          rw [getTask_save_setMTask hb hk]
          have hsucc := taskStart_success (by simpa using h2)
          cases hsp : spawn with
          | none => exact absurd hsp hsucc.2.2
          | some p =>
              rw [hsp] at hsucc
              rw [GetRuntimeInfo_some hsucc.1 hsucc.2.1]
              rfl
  · intro he
    cases hl : lookupMTask m n with
    | none =>
        have heq : restartTask m doc env spawn dspawn now n
            = (m, ensureDaemonForCommand m doc env dspawn now, true) := by
          simp only [restartTask, hb, Bool.false_eq_true, if_false, hl]
        rw [heq] at he
        simp at he
    | some t =>
        have heq : restartTask m doc env spawn dspawn now n
            = if (if t.status = "running" then taskStop t env else (t, false)).2 = true then
                (setMTask m n (if t.status = "running" then taskStop t env else (t, false)).1,
                  ensureDaemonForCommand m doc env dspawn now, true)
              else if (taskStart
                  (if t.status = "running" then taskStop t env else (t, false)).1
                  spawn now).2 = true then
                (setMTask m n (taskStart
                    (if t.status = "running" then taskStop t env else (t, false)).1
                    spawn now).1,
                  ensureDaemonForCommand m doc env dspawn now, true)
              else
                (setMTask m n (taskStart
                    (if t.status = "running" then taskStop t env else (t, false)).1
                    spawn now).1,
                  saveRuntimeStateDoc (setMTask m n (taskStart
                      (if t.status = "running" then taskStop t env else (t, false)).1
                      spawn now).1)
                    (resetTaskRetryCount
                      (ensureDaemonForCommand m doc env dspawn now) n),
                  false) := by
          simp only [restartTask, hb, Bool.false_eq_true, if_false, hl]
        rw [heq] at he ⊢
        by_cases hse : (if t.status = "running" then taskStop t env else (t, false)).2 = true
        · rw [if_pos hse] at he
          simp at he
        · rw [if_neg hse] at he ⊢
          by_cases h2 : (taskStart
              (if t.status = "running" then taskStop t env else (t, false)).1
              spawn now).2 = true
          · rw [if_pos h2] at he
            simp at he
          · rw [if_neg h2]
            show (getTask (saveRuntimeStateDoc (setMTask m n (taskStart
                (if t.status = "running" then taskStop t env else (t, false)).1
                spawn now).1)
                (resetTaskRetryCount
                  (ensureDaemonForCommand m doc env dspawn now) n)) n).map
                TaskRuntimeInfo.retryNum = some 0
            rw [getTask_save_setMTask hb hk]
            have hsucc := taskStart_success (by simpa using h2)
            cases hsp : spawn with
            | none => exact absurd hsp hsucc.2.2
            | some p =>
                rw [hsp] at hsucc
                rw [GetRuntimeInfo_some hsucc.1 hsucc.2.1]
                rfl

/-- C7 witness: concrete successful start and restart of the stopped
task `t1` — the persisted retry counter ends at 0 although the previous
record carried retryCount 2. -/
theorem c7_witness :
    (getTask (startTask mD doc5 envK (some 11) none 400 "t1").2.1 "t1").map
        TaskRuntimeInfo.retryNum = some 0 ∧
    (getTask (restartTask mD doc5 envK (some 11) none 400 "t1").2.1 "t1").map
        TaskRuntimeInfo.retryNum = some 0 :=
  ⟨(c7_manual_start_resets_retry mD doc5 envK (some 11) none 400 "t1"
      (by decide) (by decide)).1 (by decide),
   (c7_manual_start_resets_retry mD doc5 envK (some 11) none 400 "t1"
      (by decide) (by decide)).2 (by decide)⟩

/-- C10: `Manager.saveRuntimeState` preserves the builtin daemon record
exactly as it stands in the on-disk document at save time, and writes a
record for a non-builtin task exactly when the in-memory task is
currently running with a live process handle (`GetRuntimeInfo` non-nil)
— so command-side saves never clobber the daemon record and drop stale
records of stopped tasks.  Hypotheses: the Go maps have no duplicate
keys, and the manager holds no task under the reserved daemon name
(`addTask` rejects it). -/
theorem c10_save_frame (m : Mgr) (cur : Doc)
    (hk : (m.tasks.map Prod.fst).Nodup) (hc : (cur.map Prod.fst).Nodup)
    (hno : lookupMTask m "taskd" = none) :
    getTask (saveRuntimeStateDoc m cur) "taskd" = getTask cur "taskd" ∧
    (∀ n, isBuiltinTask n = false →
        getTask (saveRuntimeStateDoc m cur) n =
          (lookupMTask m n).bind GetRuntimeInfo) := by
  constructor
  · unfold saveRuntimeStateDoc getTask
    rw [alookup_overlay_of_nodup (builtin_keys_nodup hc)]
    rw [alookup_builtinRecords]
    cases hcur : alookup cur "taskd" with
    | some i => rfl
    | none =>
        rw [alookup_regular hk]
        rw [show alookup m.tasks "taskd" = none from hno]
        rfl
  · intro n hbn
    have hnn : n ≠ "taskd" := by
      intro hh
      rw [hh] at hbn
      simp [isBuiltinTask] at hbn
    exact getTask_save_nonbuiltin hk hnn

/-- C1: every operation that writes the runtime state document
preserves the record invariant `status = running → pid > 0` (and its
converse, `pid = 0 → status ≠ running`, both parts of `recOk`): the
monitor's exit handling, operator stop, daemon start and stop, the
command-side rebuild-save, manual start/restart, and a whole monitor
tick.  Hypotheses: the document already satisfies the invariant, every
held process handle has a positive pid (`mgrOk`, as the OS hands out
positive pids and `restoreRuntimeState` checks `pid > 0`), and spawns
deliver positive pids. -/
theorem c1_running_iff_positive_pid (doc : Doc) (m : Mgr) (env : Env)
    (now : Int) (h : docOk doc) (hm : mgrOk m) :
    (∀ n info ec, docOk (updateTaskExitedStatus n info ec now doc)) ∧
    (∀ n, docOk (stopTask m doc env now n).2.1) ∧
    (∀ dspawn, spawnOk dspawn → docOk (startDaemonOp doc env dspawn now).1) ∧
    docOk (stopDaemonOp doc env now).1 ∧
    docOk (saveRuntimeStateDoc m doc) ∧
    (∀ spawn dspawn n, spawnOk spawn → spawnOk dspawn →
        docOk (startTask m doc env spawn dspawn now n).2.1) ∧
    (∀ spawn dspawn n, spawnOk spawn → spawnOk dspawn →
        docOk (restartTask m doc env spawn dspawn now n).2.1) ∧
    (∀ te : TickEnv, (∀ k, spawnOk (te.spawns k)) → spawnOk te.dspawn →
        docOk (checkAndRestartTasks te m doc).2.1) := by
  refine ⟨?_, ?_, ?_, ?_, ?_, ?_, ?_, ?_⟩
  · exact fun n info ec => docOk_updateTaskExitedStatus h n info ec now
  · exact fun n => (stopTask_ok h hm).1
  · exact fun dspawn hd => docOk_startDaemonOp h env hd now
  · exact docOk_stopDaemonOp h env now
  · exact docOk_saveRuntimeStateDoc hm h
  · exact fun spawn dspawn n hs hd => (startTask_ok h hm hs hd).1
  · exact fun spawn dspawn n hs hd => (restartTask_ok h hm hs hd).1
  · exact fun te hsp hd => (checkAndRestartTasks_ok h hm hsp hd).1

/-- C1 witness: the invariant holds after a concrete operator stop, a
rebuild-save, and a full monitor tick from a well-formed state. -/
theorem c1_witness :
    docOk (stopTask mD docC8 envK 0 "t1").2.1 ∧
    docOk (saveRuntimeStateDoc mD docC8) ∧
    docOk (checkAndRestartTasks te1 mD docC8).2.1 := by
  have h := c1_running_iff_positive_pid docC8 mD envK 0 (by decide) (by decide)
  exact ⟨h.2.1 "t1", h.2.2.2.2.1,
    h.2.2.2.2.2.2.2 te1 (fun k => by
      by_cases hk : k = "t1" <;> simp [te1, hk] <;> decide) (by decide)⟩

/-- C5 (code evaluated at the failing input): the persisted retry count
before the monitor restart is 2; `TaskMonitor.retryTask` succeeds (the
record ends up running on the fresh pid 9) yet the persisted retry count
afterwards is 1, not 3 — `Manager.startTask`, which the monitor
re-invokes, resets the counter meant for manual starts and its
rebuild-save writes a fresh record with retryNum 0 before
`incrementRetryCount` bumps it. -/
theorem c5_retry_count_after_monitor_restart :
    (getTask doc5 "t1").map TaskRuntimeInfo.retryNum = some 2 ∧
    (getTask (retryTask mD doc5 te5 "t1").2 "t1").map TaskRuntimeInfo.status
        = some "running" ∧
    (getTask (retryTask mD doc5 te5 "t1").2 "t1").map TaskRuntimeInfo.pid
        = some 9 ∧
    (getTask (retryTask mD doc5 te5 "t1").2 "t1").map TaskRuntimeInfo.retryNum
        = some 1 := by
  refine ⟨?_, ?_, ?_, ?_⟩ <;> decide

/-- C8 counterexample: the claim says the externally killed task is
restarted WITHIN the same monitor tick, with retryCount 1 and a new pid.
At this concrete input (record running at dead pid 7, auto-start on,
retry budget left, spawn available) the first tick only marks the task
stopped with pid 0 and retryCount still 0 — no restart happens in that
tick, because the eligibility check reads the snapshot taken at tick
start, which still says `running`. -/
theorem c8_counterexample :
    (getTask (checkAndRestartTasks te1 mD docC8).2.1 "t1").map
        TaskRuntimeInfo.status = some "stopped" ∧
    (getTask (checkAndRestartTasks te1 mD docC8).2.1 "t1").map
        TaskRuntimeInfo.pid = some 0 ∧
    (getTask (checkAndRestartTasks te1 mD docC8).2.1 "t1").map
        TaskRuntimeInfo.retryNum = some 0 := by
  refine ⟨?_, ?_, ?_⟩ <;> decide

/-- C8 (amended): after the tick that detects the external kill the
persisted record is stopped with pid 0 and retryCount preserved (0); the
restart happens one tick later — after the second tick the record is
running on the fresh pid 8 with retryCount 1. -/
theorem c8_restart_on_next_tick :
    getTask (checkAndRestartTasks te1 mD docC8).2.1 "t1" =
      some { name := "t1", status := "stopped", pid := 0, startTime := 2,
             endTime := 100, exitCode := 0, stoppedByTaskd := false,
             retryNum := 0 } ∧
    getTask (checkAndRestartTasks te2 (checkAndRestartTasks te1 mD docC8).1
        (checkAndRestartTasks te1 mD docC8).2.1).2.1 "t1" =
      some { name := "t1", status := "running", pid := 8, startTime := 200,
             endTime := 0, exitCode := 0, stoppedByTaskd := false,
             retryNum := 1 } := by
  refine ⟨?_, ?_⟩ <;> decide

/-- C10 witness: a concrete save from a manager holding the running
`t1` against a document holding the daemon record and a stale `t1`
record. -/
theorem c10_witness :
    getTask (saveRuntimeStateDoc mS doc5) "taskd" = getTask doc5 "taskd" ∧
    getTask (saveRuntimeStateDoc mS doc5) "t1" =
      (lookupMTask mS "t1").bind GetRuntimeInfo ∧
    getTask (saveRuntimeStateDoc mD doc5) "t1" = none :=
  ⟨(c10_save_frame mS doc5 (by decide) (by decide) (by decide)).1,
   (c10_save_frame mS doc5 (by decide) (by decide) (by decide)).2 "t1" (by decide),
   by
     rw [(c10_save_frame mD doc5 (by decide) (by decide) (by decide)).2 "t1"
       (by decide)]
     decide⟩


end Taskd
